import Mathlib

/-!
Shallow embedding of the wpokt-monitor dashboard (src/components/MintPanel.tsx
and src/components/WagmiWrapper.tsx) and proofs of the spec's claims about it.

Modelling conventions:
* JS `bigint` nonces are modelled as `Nat` (on-chain nonces are unsigned
  counters read from a uint256 contract slot); JS truthiness of a possibly
  absent bigint (`undefined` and `0n` are falsy) is `jsTruthy`.
* A mint record's optional fields (`data`, `signatures`, `nonce`,
  `mint_tx_hash`) are `Option`s; `none` stands for a JS-falsy field value
  (absent / null / undefined), so the source's `!mint.data` test is `isNone`.
  The recorded `mint.nonce` comes from the store as a string, so a present
  value `"0"` is truthy and is modelled as `some 0`.
* The asynchronous `mintTokens` callback is embedded as a pure function from
  an environment (wallet availability and the outcomes of the two awaited
  calls) and the panel's component state to the final component state plus a
  trace of observable effects (toasts, the contract write, the receipt wait,
  and the two data-source triggers).
-/

/-- JS truthiness of a possibly-absent bigint value: `undefined` and `0n`
are falsy, every other bigint is truthy. -/
def jsTruthy : Option Nat → Bool
  | none => false
  | some n => decide (n ≠ 0)

/-- Status values of a mint record (spec section 3: drawn from at least
pending, signed, confirmed, completed). -/
inductive MintStatus
  | pending
  | signed
  | confirmed
  | completed
deriving DecidableEq, BEq

/-- A mint record, with the fields MintPanel.tsx reads. `nonce` is the
record's on-chain nonce (`none` when the field is unset), `data` the encoded
mint payload and `signatures` the collected signature list (`none` when the
field is missing from the record). -/
structure Mint where
  id : Nat
  nonce : Option Nat
  status : MintStatus
  data : Option String
  signatures : Option (List String)
deriving DecidableEq

/-- Length of a mint's signature list, 0 when the field is missing. -/
def sigLen (m : Mint) : Nat := (m.signatures.getD []).length

/-- MintPanel.tsx lines 219-221:
`nonce ? (!mint.nonce || BigInt(mint.nonce) > nonce + BigInt(1)) : true`.
The ternary condition is JS truthiness of the per-recipient on-chain nonce,
so an absent or zero nonce takes the `: true` branch. -/
def isMintNotReady (nonce mintNonce : Option Nat) : Bool :=
  if jsTruthy nonce then
    mintNonce.isNone || decide (mintNonce.getD 0 > nonce.getD 0 + 1)
  else true

/-- MintPanel.tsx lines 222-224:
`nonce ? (!!mint.nonce && BigInt(mint.nonce) <= nonce) : true`.
Again an absent or zero on-chain nonce takes the `: true` branch. -/
def isMintCompleted (nonce mintNonce : Option Nat) : Bool :=
  if jsTruthy nonce then
    mintNonce.isSome && decide (mintNonce.getD 0 ≤ nonce.getD 0)
  else true

/-- The spec's "not ready" case (section 4, stated verbatim): the mint is not
ready iff the on-chain nonce `n` is unknown, or the recorded nonce is unset,
or the recorded nonce exceeds `n + 1`. -/
def specNotReady (nonce mintNonce : Option Nat) : Bool :=
  nonce.isNone || mintNonce.isNone || decide (mintNonce.getD 0 > nonce.getD 0 + 1)

/-- The spec's "completed" case (section 4, stated verbatim): the mint is
completed iff the on-chain nonce `n` is known, the recorded nonce is set,
and the recorded nonce is at most `n`. -/
def specCompleted (nonce mintNonce : Option Nat) : Bool :=
  nonce.isSome && mintNonce.isSome && decide (mintNonce.getD 0 ≤ nonce.getD 0)

/-- The amended "not ready" case: a known on-chain nonce equal to zero is
treated like an unknown one (JS truthiness of `0n`), otherwise as the spec
says. -/
def amendedNotReady : Option Nat → Option Nat → Bool
  | none, _ => true
  | some 0, _ => true
  | some _, none => true
  | some n, some mn => decide (mn > n + 1)

/-- The amended "completed" case: when the on-chain nonce is unknown or zero
the mint is also flagged completed; otherwise completed iff the recorded
nonce is set and at most the on-chain nonce. -/
def amendedCompleted : Option Nat → Option Nat → Bool
  | none, _ => true
  | some 0, _ => true
  | some _, none => false
  | some n, some mn => decide (mn ≤ n)

/-- What the Action column of a row renders: either the Mint button with its
disabled flag, or the plain text "N/A". -/
inductive ActionCell
  | mintButton (isDisabled : Bool)
  | notAvailable
deriving DecidableEq, BEq

/-- MintPanel.tsx lines 268-271: the Mint button is rendered (rather than
"N/A") when `!!nonce && (status === signed || (status === confirmed &&
signatures.length >= 2))`. -/
def showsMintButton (nonce : Option Nat) (m : Mint) : Bool :=
  jsTruthy nonce &&
    (decide (m.status = MintStatus.signed) ||
      (decide (m.status = MintStatus.confirmed) && decide (sigLen m ≥ 2)))

/-- MintPanel.tsx lines 267-294: the rendered Action cell; the button's
`isDisabled` is `isMintNotReady || isMintCompleted`. -/
def actionCell (nonce : Option Nat) (m : Mint) : ActionCell :=
  if showsMintButton nonce m then
    ActionCell.mintButton (isMintNotReady nonce m.nonce || isMintCompleted nonce m.nonce)
  else
    ActionCell.notAvailable

/-- A connected chain, as the network hook reports it. -/
structure Chain where
  id : Nat
deriving DecidableEq

/-- The one required chain identifier (`DEFAULT_CHAIN.id`); the code targets
Ethereum Goerli (chain id 5, as in the CLI instruction and the Etherscan
links). The claims are parametric in the value. -/
def DEFAULT_CHAIN_ID : Nat := 5

/-- WagmiWrapper.tsx lines 36-39:
`!!chain && chain.id !== DEFAULT_CHAIN.id`. -/
def isInvalidNetwork (chain : Option Chain) : Bool :=
  match chain with
  | none => false
  | some c => decide (c.id ≠ DEFAULT_CHAIN_ID)

/-- Observable effects of the panel's handlers, in the order they occur:
toast notifications (by flavour), the `toast.closeAll` calls, the
`writeContract` call, the `waitForTransactionReceipt` call, the nonce-map
refresh trigger (`refresh` from the `useWPOKTNonceMap` state) and the
mint-list reload trigger (`reload` from `useAllMints`). -/
inductive Event
  | toastError
  | toastLoading
  | toastSuccess
  | toastCloseAll
  | contractWrite
  | waitForReceipt
  | nonceRefresh
  | mintsReload
deriving DecidableEq, BEq

/-- The external context `mintTokens` closes over: the connected account
address, whether the wallet and public clients are available, and whether
each of the two awaited calls resolves (`true`) or throws (`false`). -/
structure Env where
  accountAddress : Option String
  hasWalletClient : Bool
  hasPublicClient : Bool
  writeOk : Bool
  waitOk : Bool
deriving DecidableEq

/-- The panel's own component state touched by `mintTokens`: the busy flag,
the id of the mint currently being submitted, and the nonce-map refresh
counter. -/
structure PanelState where
  isLoading : Bool
  currentMintId : Option Nat
  refreshCount : Nat
deriving DecidableEq

/-- MintPanel.tsx lines 58-127, `mintTokens`, as a function from the
environment, the mint and the component state to the final component state
and the trace of observable effects:
* missing `data` or `signatures` (lines 60-69): one error toast, return;
* missing account address, wallet client or public client (line 70):
  silent return;
* otherwise enter the try block: set the busy flag and current mint id,
  call `writeContract`; on success close toasts, show the loading toast,
  await the receipt; on confirmed receipt close toasts, show the success
  toast and bump the nonce-map refresh counter; any throw is caught and
  surfaced as one error toast after a `closeAll`; the `finally` clause
  clears the busy flag and the current mint id on every path. -/
def mintTokens (env : Env) (m : Mint) (s : PanelState) : PanelState × List Event :=
  if m.data.isNone || m.signatures.isNone then
    (s, [Event.toastError])
  else if env.accountAddress.isNone || !env.hasWalletClient || !env.hasPublicClient then
    (s, [])
  else
    let s1 : PanelState := { s with isLoading := true, currentMintId := some m.id }
    if env.writeOk then
      if env.waitOk then
        ({ s1 with refreshCount := s1.refreshCount + 1,
                   isLoading := false, currentMintId := none },
         [Event.contractWrite, Event.toastCloseAll, Event.toastLoading,
          Event.waitForReceipt, Event.toastCloseAll, Event.toastSuccess,
          Event.nonceRefresh])
      else
        ({ s1 with isLoading := false, currentMintId := none },
         [Event.contractWrite, Event.toastCloseAll, Event.toastLoading,
          Event.waitForReceipt, Event.toastCloseAll, Event.toastError])
    else
      ({ s1 with isLoading := false, currentMintId := none },
       [Event.contractWrite, Event.toastCloseAll, Event.toastError])

/-- MintPanel.tsx line 311: the Reload button's click handler is the only
place the mint-list reload trigger is invoked. -/
def onReloadClick : List Event := [Event.mintsReload]

/-- Modelled from the spec: `POKT_MULTISIG_ADDRESS` lives in
`utils/constants`, outside the provided sources. Section 6 describes "one
fixed vault deposit address displayed to the user as a copyable command-line
instruction", and the panel's step-1 text names that vault address. -/
def POKT_MULTISIG_ADDRESS : String := "7FB0A18CEB4E803F22911F5B85E2727BB3BDF04B"

/-- MintPanel.tsx line 37: the fixed deposit-instruction string, with the
vault address interpolated. -/
def CLI_CODE : String :=
  "pocket accounts send-tx 92d75da9086b557764432b66b7d3703c1492771a "
    ++ POKT_MULTISIG_ADDRESS
    ++ " 20000000 testnet 10000 \x27\x7b\"address\":\"0x3F9B2fea60325d733e61bC76598725c5430cD751\",\"chain_id\":\"5\"\x7d\x27  --remoteCLIURL https://node2.testnet.pokt.network"

/-- Modelled from the spec: the state of Chakra's `useClipboard` hook
(outside the provided sources), per the spec's copy-to-clipboard contract:
a held text value, initialised to the string passed to the hook, and a
copied-state flag, initially false. -/
structure ClipboardState where
  value : String
  hasCopied : Bool
deriving DecidableEq

/-- Modelled from the spec: the hook's initial state for a given text. -/
def useClipboardInit (s : String) : ClipboardState :=
  { value := s, hasCopied := false }

/-- Modelled from the spec: invoking the copy affordance copies the held
value and sets the copied-state flag. -/
def onCopy (st : ClipboardState) : ClipboardState :=
  { st with hasCopied := true }

/-- MintPanel.tsx lines 174-180: the Textarea next to the copy button
displays the clipboard hook's current value. -/
def displayedCliText (st : ClipboardState) : String := st.value

/-- A mint record that is fully ready: recorded nonce 6, status signed,
payload and two signatures present. -/
def sampleMint : Mint :=
  { id := 1, nonce := some 6, status := MintStatus.signed,
    data := some "0xdata", signatures := some ["sig1", "sig2"] }

/-- `sampleMint` with its `data` field missing. -/
def sampleMintNoData : Mint := { sampleMint with data := none }

/-- The panel's idle component state. -/
def sampleState : PanelState :=
  { isLoading := false, currentMintId := none, refreshCount := 0 }

/-- An environment where everything is available and both awaited calls
succeed. -/
def sampleEnvOk : Env :=
  { accountAddress := some "0xabc", hasWalletClient := true,
    hasPublicClient := true, writeOk := true, waitOk := true }

/-- `sampleEnvOk` with a throwing `writeContract`. -/
def sampleEnvWriteFails : Env := { sampleEnvOk with writeOk := false }

/-- `sampleEnvOk` with no wallet client. -/
def sampleEnvNoWallet : Env := { sampleEnvOk with hasWalletClient := false }

/-- Claim C1 counterexample: at a known per-recipient on-chain nonce of 0 and
a recorded mint nonce of 1, the code flags the mint both not ready and
completed, while the spec's four-case definition flags neither (0n is falsy
in JS, so a zero on-chain nonce takes the "unknown" branches); likewise at an
unknown on-chain nonce the code flags the mint completed while the spec's
definition does not. -/
theorem actionability_spec_mismatch :
    isMintNotReady (some 0) (some 1) ≠ specNotReady (some 0) (some 1) ∧
    isMintCompleted (some 0) (some 1) ≠ specCompleted (some 0) (some 1) ∧
    isMintCompleted none (some 1) ≠ specCompleted none (some 1) := by
  decide

/-- Claim C1 (amended): for every pair of a per-recipient on-chain nonce and
a recorded mint nonce, the computed flags match the four-case definition
amended so that a known on-chain nonce equal to zero is treated like an
unknown one, and an unknown-or-zero on-chain nonce flags the mint completed
as well as not ready. -/
theorem actionability_matches_amended_spec (nonce mintNonce : Option Nat) :
    isMintNotReady nonce mintNonce = amendedNotReady nonce mintNonce ∧
    isMintCompleted nonce mintNonce = amendedCompleted nonce mintNonce := by
  cases nonce with
  | none =>
      cases mintNonce <;>
        simp [isMintNotReady, isMintCompleted, amendedNotReady, amendedCompleted, jsTruthy]
  | some n =>
      cases n with
      | zero =>
          cases mintNonce <;>
            simp [isMintNotReady, isMintCompleted, amendedNotReady, amendedCompleted, jsTruthy]
      | succ k =>
          cases mintNonce <;>
            simp [isMintNotReady, isMintCompleted, amendedNotReady, amendedCompleted, jsTruthy]

/-- Claim C1 witness: the amended equivalence evaluated at the concrete pair
(on-chain nonce 5, recorded nonce 6). -/
theorem actionability_matches_amended_spec_witness :
    isMintNotReady (some 5) (some 6) = amendedNotReady (some 5) (some 6) ∧
    isMintCompleted (some 5) (some 6) = amendedCompleted (some 5) (some 6) :=
  actionability_matches_amended_spec (some 5) (some 6)

/-- Claim C4: the network-invalidity predicate holds exactly on the non-null
chains whose identifier differs from the required chain identifier. -/
theorem isInvalidNetwork_iff (c : Option Chain) :
    isInvalidNetwork c = true ↔ ∃ ch, c = some ch ∧ ch.id ≠ DEFAULT_CHAIN_ID := by
  cases c with
  | none => simp [isInvalidNetwork]
  | some ch => simp [isInvalidNetwork]

/-- Claim C4 witness: a connected chain with identifier 7 is reported
invalid. -/
theorem isInvalidNetwork_iff_witness :
    isInvalidNetwork (some { id := 7 }) = true :=
  (isInvalidNetwork_iff (some { id := 7 })).mpr ⟨{ id := 7 }, rfl, by decide⟩

/-- Claim C9: for every mint record, when the recipient's on-chain nonce is
exactly zero the row's Action column renders "N/A" with no button, and the
row is classified both not ready and completed. -/
theorem zero_nonce_treated_as_unknown (m : Mint) :
    actionCell (some 0) m = ActionCell.notAvailable ∧
    isMintNotReady (some 0) m.nonce = true ∧
    isMintCompleted (some 0) m.nonce = true := by
  refine ⟨?_, ?_, ?_⟩ <;>
    simp [actionCell, showsMintButton, isMintNotReady, isMintCompleted, jsTruthy]

/-- Claim C9 witness: the zero-nonce classification evaluated at the sample
ready mint. -/
theorem zero_nonce_treated_as_unknown_witness :
    actionCell (some 0) sampleMint = ActionCell.notAvailable ∧
    isMintNotReady (some 0) sampleMint.nonce = true ∧
    isMintCompleted (some 0) sampleMint.nonce = true :=
  zero_nonce_treated_as_unknown sampleMint

/-- Claim C8: invoking the copy affordance from the panel's initial clipboard
state makes the copied-state flag true, and the text displayed next to it is
the fixed deposit-instruction string. -/
theorem copy_sets_flag_and_shows_cli :
    (onCopy (useClipboardInit CLI_CODE)).hasCopied = true ∧
    displayedCliText (onCopy (useClipboardInit CLI_CODE)) = CLI_CODE :=
  ⟨rfl, rfl⟩

/-- Claim C3: whenever a row's Action cell is an enabled (non-disabled) Mint
button, the mint's status is signed, or confirmed with at least two collected
signatures, and neither the not-ready nor the completed condition holds. -/
theorem mint_button_enabled_only_when (nonce : Option Nat) (m : Mint)
    (h : actionCell nonce m = ActionCell.mintButton false) :
    (m.status = MintStatus.signed ∨
      (m.status = MintStatus.confirmed ∧ 2 ≤ sigLen m)) ∧
    isMintNotReady nonce m.nonce = false ∧
    isMintCompleted nonce m.nonce = false := by
  by_cases hb : showsMintButton nonce m = true
  · unfold actionCell at h
    rw [if_pos hb] at h
    have hd : (isMintNotReady nonce m.nonce || isMintCompleted nonce m.nonce) = false := by
      injection h
    simp only [showsMintButton, Bool.and_eq_true, Bool.or_eq_true,
      decide_eq_true_eq] at hb
    simp only [Bool.or_eq_false_iff] at hd
    refine ⟨?_, hd.1, hd.2⟩
    rcases hb.2 with h1 | h1
    · exact Or.inl h1
    · exact Or.inr ⟨h1.1, h1.2⟩
  · unfold actionCell at h
    rw [if_neg hb] at h
    exact absurd h (by simp)

/-- Claim C3 witness: at on-chain nonce 5 the sample signed mint with
recorded nonce 6 has an enabled button, so the enabling conditions hold. -/
theorem mint_button_enabled_only_when_witness :
    (sampleMint.status = MintStatus.signed ∨
      (sampleMint.status = MintStatus.confirmed ∧ 2 ≤ sigLen sampleMint)) ∧
    isMintNotReady (some 5) sampleMint.nonce = false ∧
    isMintCompleted (some 5) sampleMint.nonce = false :=
  mint_button_enabled_only_when (some 5) sampleMint (by decide)

/-- Claim C5: a mint lacking its `data` field or its `signatures` field is
rejected locally: the contract write is never called and exactly one error
notification is shown. -/
theorem missing_fields_rejected_locally (env : Env) (m : Mint) (s : PanelState)
    (h : m.data = none ∨ m.signatures = none) :
    (mintTokens env m s).2.count Event.contractWrite = 0 ∧
    (mintTokens env m s).2.count Event.toastError = 1 := by
  have hg : (m.data.isNone || m.signatures.isNone) = true := by
    rcases h with h | h <;> simp [h]
  have ht : (mintTokens env m s).2 = [Event.toastError] := by
    simp [mintTokens, hg]
  rw [ht]
  decide

/-- Claim C5 witness: the local rejection evaluated at the sample mint with
its `data` field removed. -/
theorem missing_fields_rejected_locally_witness :
    (mintTokens sampleEnvOk sampleMintNoData sampleState).2.count Event.contractWrite = 0 ∧
    (mintTokens sampleEnvOk sampleMintNoData sampleState).2.count Event.toastError = 1 :=
  missing_fields_rejected_locally sampleEnvOk sampleMintNoData sampleState (Or.inl rfl)

/-- Claim C10: for a mint with both `data` and `signatures`, if the account
address, the wallet client or the public client is unavailable, the action
returns silently: no write, no notification of any kind, and the component
state (busy flag, current mint id, refresh counter) unchanged. -/
theorem unavailable_wallet_silent_return (env : Env) (m : Mint) (s : PanelState)
    (hd : m.data.isNone = false) (hsg : m.signatures.isNone = false)
    (h : env.accountAddress.isNone = true ∨ env.hasWalletClient = false ∨
      env.hasPublicClient = false) :
    mintTokens env m s = (s, []) := by
  rcases h with h | h | h <;> simp [mintTokens, hd, hsg, h]

/-- Claim C10 witness: the silent return evaluated at the sample ready mint
with the wallet client unavailable. -/
theorem unavailable_wallet_silent_return_witness :
    mintTokens sampleEnvNoWallet sampleMint sampleState = (sampleState, []) :=
  unavailable_wallet_silent_return sampleEnvNoWallet sampleMint sampleState
    rfl rfl (Or.inr (Or.inl rfl))

/-- Claim C6: when the contract write throws, the invocation ends with the
busy flag false and exactly one error notification shown. -/
theorem failing_write_clears_busy_one_error (env : Env) (m : Mint) (s : PanelState)
    (hd : m.data.isNone = false) (hsg : m.signatures.isNone = false)
    (ha : env.accountAddress.isNone = false)
    (hw : env.hasWalletClient = true) (hp : env.hasPublicClient = true)
    (hwr : env.writeOk = false) :
    (mintTokens env m s).1.isLoading = false ∧
    (mintTokens env m s).2.count Event.toastError = 1 := by
  have ht1 : (mintTokens env m s).1.isLoading = false := by
    simp [mintTokens, hd, hsg, ha, hw, hp, hwr]
  have ht2 : (mintTokens env m s).2 =
      [Event.contractWrite, Event.toastCloseAll, Event.toastError] := by
    simp [mintTokens, hd, hsg, ha, hw, hp, hwr]
  exact ⟨ht1, by rw [ht2]; decide⟩

/-- Claim C6 witness: the failing-write outcome evaluated at the sample
ready mint with a throwing write. -/
theorem failing_write_clears_busy_one_error_witness :
    (mintTokens sampleEnvWriteFails sampleMint sampleState).1.isLoading = false ∧
    (mintTokens sampleEnvWriteFails sampleMint sampleState).2.count Event.toastError = 1 :=
  failing_write_clears_busy_one_error sampleEnvWriteFails sampleMint sampleState
    rfl rfl rfl rfl rfl rfl

/-- Claim C7: every invocation that enters the submission phase (both record
fields present and account, wallet client and public client available, so the
busy flag and current-mint-id marker are set) ends with the busy flag false
and the current-mint-id marker cleared, whatever the write and confirmation
outcomes. -/
theorem submission_always_clears_busy (env : Env) (m : Mint) (s : PanelState)
    (hd : m.data.isNone = false) (hsg : m.signatures.isNone = false)
    (ha : env.accountAddress.isNone = false)
    (hw : env.hasWalletClient = true) (hp : env.hasPublicClient = true) :
    (mintTokens env m s).1.isLoading = false ∧
    (mintTokens env m s).1.currentMintId = none := by
  cases hwk : env.writeOk <;> cases hwt : env.waitOk <;>
    simp [mintTokens, hd, hsg, ha, hw, hp, hwk, hwt]

/-- Claim C7 witness: the guaranteed cleanup evaluated at the sample ready
mint in the fully-available environment. -/
theorem submission_always_clears_busy_witness :
    (mintTokens sampleEnvOk sampleMint sampleState).1.isLoading = false ∧
    (mintTokens sampleEnvOk sampleMint sampleState).1.currentMintId = none :=
  submission_always_clears_busy sampleEnvOk sampleMint sampleState rfl rfl rfl rfl rfl

/-- Claim C2 counterexample: a successful invocation (write succeeds and the
confirmation wait succeeds) never invokes the mint-list reload trigger — the
code instead bumps the nonce-map refresh counter — so the reload trigger is
not invoked exactly once. -/
theorem success_does_not_reload_mint_list :
    sampleEnvOk.writeOk = true ∧ sampleEnvOk.waitOk = true ∧
    (mintTokens sampleEnvOk sampleMint sampleState).2.count Event.mintsReload ≠ 1 := by
  decide

/-- Claim C2 (amended): for every invocation in which the write and the
confirmation wait succeed, the nonce-map refresh trigger — not the mint-list
reload trigger — is invoked exactly once, after the receipt wait. -/
theorem success_refreshes_nonce_map_once (env : Env) (m : Mint) (s : PanelState)
    (hd : m.data.isNone = false) (hsg : m.signatures.isNone = false)
    (ha : env.accountAddress.isNone = false)
    (hw : env.hasWalletClient = true) (hp : env.hasPublicClient = true)
    (hwk : env.writeOk = true) (hwt : env.waitOk = true) :
    (mintTokens env m s).2.count Event.nonceRefresh = 1 ∧
    ((mintTokens env m s).2.takeWhile
      (fun e => e != Event.waitForReceipt)).count Event.nonceRefresh = 0 ∧
    (mintTokens env m s).2.count Event.mintsReload = 0 := by
  have ht : (mintTokens env m s).2 =
      [Event.contractWrite, Event.toastCloseAll, Event.toastLoading,
       Event.waitForReceipt, Event.toastCloseAll, Event.toastSuccess,
       Event.nonceRefresh] := by
    simp [mintTokens, hd, hsg, ha, hw, hp, hwk, hwt]
  rw [ht]
  decide

/-- Claim C2 witness: the amended reload behaviour evaluated at the sample
ready mint in the fully-available environment. -/
theorem success_refreshes_nonce_map_once_witness :
    (mintTokens sampleEnvOk sampleMint sampleState).2.count Event.nonceRefresh = 1 ∧
    ((mintTokens sampleEnvOk sampleMint sampleState).2.takeWhile
      (fun e => e != Event.waitForReceipt)).count Event.nonceRefresh = 0 ∧
    (mintTokens sampleEnvOk sampleMint sampleState).2.count Event.mintsReload = 0 :=
  success_refreshes_nonce_map_once sampleEnvOk sampleMint sampleState
    rfl rfl rfl rfl rfl rfl rfl
